import Mathlib

/-!
Shallow embedding of the cart/order engine of the ShopEase e-commerce
server (src/server/models/Cart.js, Order.js, Product.js and the routes in
src/server/routes/cart.js).  MongoDB ObjectIds are modelled as `Nat`,
JS numbers carrying money as `Rat`, quantities as `Int` (JS numbers;
Mongo `$inc` update queries do not run schema validators, so product
quantities can go negative), timestamps as `Nat`.
-/

namespace Shop

/-- A variant selector as stored on cart/order items
(`variant: { name, options: [{name, value}] }`); JS compares variants by
`JSON.stringify` equality, i.e. structural equality. -/
structure Variant where
  name : Option String
  options : List (String × String)
deriving DecidableEq, Repr

/-- Cart line item (`cartItemSchema`). -/
structure CartItem where
  product : Nat
  variant : Variant
  quantity : Int
  price : Rat
  addedAt : Nat
deriving DecidableEq, Repr

inductive CouponType
  | percentage
  | fixed
deriving DecidableEq, Repr

/-- An applied coupon (the `coupon` subdocument when `coupon.code` is set;
`clear`/`removeCoupon` reset the subdocument to `{}`, modelled as `none` at
the cart level). -/
structure Coupon where
  code : String
  discount : Rat
  ctype : CouponType
  appliedAt : Nat
  expiresAt : Nat
deriving DecidableEq, Repr

/-- The cart document (`cartSchema`), restricted to the fields the engine
reads. -/
structure Cart where
  items : List CartItem
  coupon : Option Coupon
  shippingMethod : String
  shippingCost : Rat
  taxAmount : Rat
  taxRate : Rat
deriving DecidableEq, Repr

/-- `cartSchema.virtual('subtotal')`: `items.reduce((sum, item) => sum + item.price * item.quantity, 0)`. -/
def Cart.subtotal (c : Cart) : Rat :=
  c.items.foldl (fun sum item => sum + item.price * (item.quantity : Rat)) 0

/-- The discount amount computed inline in `cartSchema.virtual('total')`:
`discount = coupon.discount || 0`;
`discountAmount = coupon.type === 'percentage' ? subtotal*discount/100 : discount`.
When the coupon subdocument is empty, `discount` is 0 and the type test
fails, so the amount is 0. -/
def Cart.discountAmount (c : Cart) : Rat :=
  match c.coupon with
  | none => 0
  | some cp =>
      if cp.ctype = CouponType.percentage then c.subtotal * cp.discount / 100
      else cp.discount

/-- `cartSchema.virtual('total')`. -/
def Cart.total (c : Cart) : Rat :=
  c.subtotal + c.shippingCost + c.taxAmount - c.discountAmount

/-- `cartSchema.virtual('itemCount')`: sum of quantities. -/
def Cart.itemCount (c : Cart) : Int :=
  c.items.foldl (fun sum item => sum + item.quantity) 0

/-- The in-memory mutation done by `cartSchema.methods.addItem` before
`save()`: `findIndex` locates the first line with the same product and
(structurally) the same variant; if found, its quantity is incremented and
`addedAt` refreshed; otherwise a new line is pushed at the end. -/
def addLines (items : List CartItem) (productId : Nat) (variant : Variant)
    (quantity : Int) (price : Rat) (now : Nat) : List CartItem :=
  match items with
  | [] => [{ product := productId, variant := variant, quantity := quantity,
             price := price, addedAt := now }]
  | item :: rest =>
      if item.product = productId ∧ item.variant = variant then
        { item with quantity := item.quantity + quantity, addedAt := now } :: rest
      else
        item :: addLines rest productId variant quantity price now

def Cart.addItemMut (c : Cart) (productId : Nat) (variant : Variant)
    (quantity : Int) (price : Rat) (now : Nat) : Cart :=
  { c with items := addLines c.items productId variant quantity price now }

/-- Replace the quantity of the first line matching (product, variant),
as done by `updateItemQuantity` via `find` followed by in-place mutation. -/
def setQtyFirst (items : List CartItem) (productId : Nat) (variant : Variant)
    (quantity : Int) : List CartItem :=
  match items with
  | [] => []
  | item :: rest =>
      if item.product = productId ∧ item.variant = variant then
        { item with quantity := quantity } :: rest
      else
        item :: setQtyFirst rest productId variant quantity

/-- The in-memory mutation done by `cartSchema.methods.updateItemQuantity`:
if a matching line exists, a non-positive quantity filters out every
matching line, and a positive quantity overwrites the first matching
line's quantity; with no matching line the cart is unchanged. -/
def Cart.updateItemQuantityMut (c : Cart) (productId : Nat) (variant : Variant)
    (quantity : Int) : Cart :=
  if c.items.any (fun item => item.product = productId ∧ item.variant = variant) then
    if quantity ≤ 0 then
      let kept := c.items.filter
        fun item => ¬ (item.product = productId ∧ item.variant = variant)
      { c with items := kept }
    else
      { c with items := setQtyFirst c.items productId variant quantity }
  else c

/-- `cartSchema.methods.removeItem`. -/
def Cart.removeItemMut (c : Cart) (productId : Nat) (variant : Variant) : Cart :=
  let kept := c.items.filter
    fun item => ¬ (item.product = productId ∧ item.variant = variant)
  { c with items := kept }

/-- `cartSchema.methods.applyCoupon`: overwrites the whole coupon
subdocument. -/
def Cart.applyCouponMut (c : Cart) (code : String) (discount : Rat)
    (ctype : CouponType) (appliedAt expiresAt : Nat) : Cart :=
  { c with coupon := some { code := code, discount := discount, ctype := ctype,
                            appliedAt := appliedAt, expiresAt := expiresAt } }

/-- `cartSchema.methods.removeCoupon`. -/
def Cart.removeCouponMut (c : Cart) : Cart :=
  { c with coupon := none }

/-- Mongoose document validation run by `save()` on the cart:
`cartItemSchema` requires `1 ≤ quantity ≤ 100` and `price ≥ 0` on every
line. -/
def Cart.validate (c : Cart) : Bool :=
  c.items.all (fun item => 1 ≤ item.quantity ∧ item.quantity ≤ 100 ∧ 0 ≤ item.price)

/-- Product lifecycle status (`productSchema.status`). -/
inductive PStatus
  | draft
  | active
  | inactive
  | archived
deriving DecidableEq, Repr

/-- `productSchema.inventory`. -/
structure Inventory where
  trackInventory : Bool
  quantity : Int
  allowBackorder : Bool
deriving DecidableEq, Repr

/-- `productSchema.sales`. -/
structure Sales where
  totalSold : Int
  totalRevenue : Rat
deriving DecidableEq, Repr

/-- The product document, restricted to the fields the cart/order engine
reads. -/
structure Product where
  price : Rat
  inventory : Inventory
  sales : Sales
  status : PStatus
deriving DecidableEq, Repr

/-- `productSchema.methods.isInStock(quantity)`. -/
def Product.isInStock (p : Product) (quantity : Int) : Bool :=
  if !p.inventory.trackInventory then true
  else if quantity ≤ p.inventory.quantity then true
  else p.inventory.allowBackorder

/-- The product collection, modelled as an association list from product id
to product (first match wins on lookup, as ids are unique). -/
def Store := List (Nat × Product)
deriving DecidableEq, Repr

/-- `Product.findById`. -/
def Store.get : Store → Nat → Option Product
  | [], _ => none
  | (i, p) :: rest, pid => if i = pid then some p else Store.get rest pid

/-- The field deltas applied by the `$inc` update used in the routes:
`inventory.quantity += dq; sales.totalSold += dSold; sales.totalRevenue += dRev`.
Update queries do not run schema validators, so the quantity may go
negative. -/
def Product.applyInc (p : Product) (dq dSold : Int) (dRev : Rat) : Product :=
  { p with
    inventory := { p.inventory with quantity := p.inventory.quantity + dq },
    sales := { totalSold := p.sales.totalSold + dSold,
               totalRevenue := p.sales.totalRevenue + dRev } }

/-- `Product.findByIdAndUpdate(pid, { $inc: ... })`. -/
def Store.inc (s : Store) (pid : Nat) (dq dSold : Int) (dRev : Rat) : Store :=
  s.map (fun e => if e.1 = pid then (e.1, e.2.applyInc dq dSold dRev) else e)

/-- Order lifecycle status (`orderSchema.status` enum). -/
inductive OStatus
  | pending
  | confirmed
  | processing
  | shipped
  | delivered
  | cancelled
  | refunded
deriving DecidableEq, Repr

/-- An order line item (`orderItemSchema`). -/
structure OrderItem where
  product : Nat
  variant : Variant
  quantity : Int
  price : Rat
  total : Rat
deriving DecidableEq, Repr

/-- A timeline entry (`orderSchema.timeline` element). -/
structure TimelineEntry where
  status : OStatus
  timestamp : Nat
  note : String
  updatedBy : Option Nat
deriving DecidableEq, Repr

/-- The order document, restricted to the fields the engine reads. -/
structure Order where
  orderNumber : String
  customer : Nat
  items : List OrderItem
  subtotal : Rat
  taxAmount : Rat
  shippingCost : Rat
  discountAmount : Rat
  total : Rat
  status : OStatus
  timeline : List TimelineEntry
deriving DecidableEq, Repr

/-- `orderSchema.methods.updateStatus(newStatus, note, updatedBy)`:
sets the status and pushes one timeline entry. -/
def Order.updateStatus (o : Order) (newStatus : OStatus) (note : String)
    (updatedBy : Option Nat) (now : Nat) : Order :=
  { o with
    status := newStatus,
    timeline := o.timeline ++ [{ status := newStatus, timestamp := now,
                                 note := note, updatedBy := updatedBy }] }

def statusName : OStatus → String
  | OStatus.pending => "pending"
  | OStatus.confirmed => "confirmed"
  | OStatus.processing => "processing"
  | OStatus.shipped => "shipped"
  | OStatus.delivered => "delivered"
  | OStatus.cancelled => "cancelled"
  | OStatus.refunded => "refunded"

/-- The note written by the pre-save hook. -/
def hookNote (st : OStatus) : String :=
  "Status changed to " ++ statusName st

/-- The `orderSchema.pre('save')` hook on an already-persisted order
(`isNew` false): when the status differs from the persisted one
(`isModified('status')`), one more timeline entry is pushed, with no
`updatedBy`. -/
def Order.saveHook (o : Order) (prevStatus : OStatus) (now : Nat) : Order :=
  if o.status ≠ prevStatus then
    { o with timeline := o.timeline ++ [{ status := o.status, timestamp := now,
                                          note := hookNote o.status, updatedBy := none }] }
  else o

/-- The domain error kinds surfaced by the routes (each corresponds to a
specific early `return res.status(...)` in src/server/routes/cart.js). -/
inductive ApiError
  | validationFailed
  | notFound
  | productUnavailable
  | outOfStock
  | invalidCoupon
  | emptyCart
  | invalidTransition
  | notAuthorized
  | saveValidationFailed
  | storageError
deriving DecidableEq, Repr

/-- `save()` on a cart document: runs schema validation and persists. -/
def Cart.save (c : Cart) : Except ApiError Cart :=
  if c.validate then Except.ok c else Except.error ApiError.saveValidationFailed

/-- `POST /api/cart/items`: the express-validator check rejects
`quantity < 1`; the product must exist, be `active` and `isInStock`;
then `cart.addItem(productId, variant, quantity, product.price)` runs
(mutation followed by `save`). -/
def routeAddItem (store : Store) (cart : Cart) (productId : Nat)
    (variant : Variant) (quantity : Int) (now : Nat) : Except ApiError Cart :=
  if quantity < 1 then Except.error ApiError.validationFailed
  else
    match store.get productId with
    | none => Except.error ApiError.notFound
    | some p =>
        if p.status ≠ PStatus.active then Except.error ApiError.productUnavailable
        else if !(p.isInStock quantity) then Except.error ApiError.outOfStock
        else (cart.addItemMut productId variant quantity p.price now).save

/-- `PUT /api/cart/items/:itemId`: the express-validator check rejects a
negative quantity; the addressed line must be in the cart; for a positive
quantity the product's stock is re-checked; then
`cart.updateItemQuantity(item.product, item.variant, quantity)` runs. -/
def routeUpdateItemQuantity (store : Store) (cart : Cart) (item : CartItem)
    (quantity : Int) : Except ApiError Cart :=
  if quantity < 0 then Except.error ApiError.validationFailed
  else if item ∉ cart.items then Except.error ApiError.notFound
  else if 0 < quantity then
    match store.get item.product with
    | none => Except.error ApiError.storageError
    | some p =>
        if !(p.isInStock quantity) then Except.error ApiError.outOfStock
        else (cart.updateItemQuantityMut item.product item.variant quantity).save
  else (cart.updateItemQuantityMut item.product item.variant quantity).save

/-- The hardcoded coupon table in `POST /api/cart/coupon`
(`validCoupons`), keyed by the upper-cased code; no entry carries an
expiry. -/
def validCoupons (code : String) : Option (Rat × CouponType) :=
  if code = "WELCOME10" then some (10, CouponType.percentage)
  else if code = "SAVE20" then some (20, CouponType.fixed)
  else if code = "FREESHIP" then some (0, CouponType.fixed)
  else none

/-- Whitespace trimming as done by the express-validator `.trim()`
sanitizer, written over the character sequence. -/
def trimChars (s : String) : String :=
  String.mk (((s.data.dropWhile Char.isWhitespace).reverse.dropWhile Char.isWhitespace).reverse)

/-- JS `toUpperCase()` over the character sequence. -/
def upperChars (s : String) : String :=
  String.mk (s.data.map Char.toUpper)

/-- `POST /api/cart/coupon`: the validator trims the code and rejects an
empty one; the trimmed code is upper-cased and looked up in
`validCoupons` (unknown → invalid coupon); an empty cart is rejected;
otherwise `cart.applyCoupon(code.toUpperCase(), discount, type, now+24h)`
overwrites the coupon. -/
def routeApplyCoupon (cart : Cart) (code : String) (now : Nat) :
    Except ApiError Cart :=
  let trimmed := trimChars code
  if trimmed = "" then Except.error ApiError.validationFailed
  else
    match validCoupons (upperChars trimmed) with
    | none => Except.error ApiError.invalidCoupon
    | some rule =>
        if cart.items.length = 0 then Except.error ApiError.emptyCart
        else
          (cart.applyCouponMut (upperChars trimmed) rule.1 rule.2 now
            (now + 24 * 60 * 60 * 1000)).save

/-- The inventory-restore loop in the order-cancellation routes: for every
order item, `$inc` the product's quantity by +qty, totalSold by −qty and
totalRevenue by −price·qty. -/
def releaseAll (store : Store) (items : List OrderItem) : Store :=
  items.foldl
    (fun st item =>
      st.inc item.product item.quantity (-item.quantity) (-(item.price * (item.quantity : Rat))))
    store

/-- Mongoose document validation run by `Order.create` on the order
document, restricted to the modelled fields: `orderItemSchema` requires
`quantity ≥ 1`, `price ≥ 0` and `total ≥ 0` on every item, and
`orderSchema` puts a `min 0` on `subtotal`, `tax.amount`, `shipping.cost`
and `total` (so a discount exceeding subtotal + tax + shipping makes
creation throw a ValidationError). -/
def Order.validate (o : Order) : Bool :=
  (o.items.all fun i => 1 ≤ i.quantity ∧ 0 ≤ i.price ∧ 0 ≤ i.total)
  ∧ 0 ≤ o.subtotal ∧ 0 ≤ o.taxAmount ∧ 0 ≤ o.shippingCost ∧ 0 ≤ o.total

/-- `PUT /api/orders/:id/status` (admin): `order.updateStatus` runs, then
`save` (whose hook appends a second entry when the status changed), and
then the route tests `status === 'cancelled' && order.status !== 'cancelled'`
— reading `order.status` AFTER the mutation — before restoring inventory. -/
def routeUpdateOrderStatus (store : Store) (o : Order) (newStatus : OStatus)
    (note : String) (actor : Nat) (now : Nat) : Order × Store :=
  let saved := (o.updateStatus newStatus note (some actor) now).saveHook o.status now
  let store1 :=
    if newStatus = OStatus.cancelled ∧ saved.status ≠ OStatus.cancelled then
      releaseAll store saved.items
    else store
  (saved, store1)

/-- `PUT /api/orders/:id/cancel` (customer): ownership check, then the
status must be `pending` or `confirmed`, then `updateStatus('cancelled',
reason || 'Cancelled by customer', user)` + `save`, then inventory restore
for every order item. -/
def routeCancelOrder (store : Store) (o : Order) (userId : Nat)
    (reason : Option String) (now : Nat) : Except ApiError (Order × Store) :=
  if o.customer ≠ userId then Except.error ApiError.notAuthorized
  else if ¬ (o.status = OStatus.pending ∨ o.status = OStatus.confirmed) then
    Except.error ApiError.invalidTransition
  else
    let saved := (o.updateStatus OStatus.cancelled
      (reason.getD "Cancelled by customer") (some userId) now).saveHook o.status now
    Except.ok (saved, releaseAll store saved.items)

/-- `items.find(...)` as used by the cart methods: the first line with the
given product and (structurally) the given variant. -/
def findLine : List CartItem → Nat → Variant → Option CartItem
  | [], _, _ => none
  | item :: rest, pid, v =>
      if item.product = pid ∧ item.variant = v then some item
      else findLine rest pid v

/-- The discount amount as the specification words it: `subtotal ×
discount/100` for a percentage coupon, the coupon's fixed discount value
for a fixed coupon, zero when no coupon is applied.  Stated separately
from `Cart.discountAmount` (which transcribes the virtual in Cart.js) so
the two can be compared. -/
def specDiscountAmount (c : Cart) : Rat :=
  match c.coupon with
  | none => 0
  | some cp =>
      if cp.ctype = CouponType.percentage then c.subtotal * cp.discount / 100
      else cp.discount

/-! ### Helper lemmas -/

theorem foldl_add_map {M : Type} [AddCommMonoid M] (f : CartItem → M)
    (items : List CartItem) (a : M) :
    items.foldl (fun s i => s + f i) a = a + (items.map f).sum := by
  induction items generalizing a with
  | nil => simp
  | cons i rest ih => simp [ih, add_assoc]

theorem findLine_mem (items : List CartItem) (pid : Nat) (v : Variant)
    (i : CartItem) (h : findLine items pid v = some i) : i ∈ items := by
  induction items with
  | nil => simp [findLine] at h
  | cons item rest ih =>
      by_cases hc : item.product = pid ∧ item.variant = v
      · simp only [findLine, if_pos hc, Option.some.injEq] at h
        simp [h]
      · simp only [findLine, if_neg hc] at h
        simp [ih h]

theorem findLine_props (items : List CartItem) (pid : Nat) (v : Variant)
    (i : CartItem) (h : findLine items pid v = some i) :
    i.product = pid ∧ i.variant = v := by
  induction items with
  | nil => simp [findLine] at h
  | cons item rest ih =>
      by_cases hc : item.product = pid ∧ item.variant = v
      · simp only [findLine, if_pos hc, Option.some.injEq] at h
        exact h ▸ hc
      · simp only [findLine, if_neg hc] at h
        exact ih h

theorem addLines_of_none (items : List CartItem) (pid : Nat) (v : Variant)
    (q : Int) (p : Rat) (now : Nat) (h : findLine items pid v = none) :
    addLines items pid v q p now =
      items ++ [{ product := pid, variant := v, quantity := q, price := p, addedAt := now }] := by
  induction items with
  | nil => rfl
  | cons item rest ih =>
      by_cases hc : item.product = pid ∧ item.variant = v
      · simp [findLine, if_pos hc] at h
      · simp only [findLine, if_neg hc] at h
        simp [addLines, if_neg hc, ih h]

theorem addLines_length_of_some (items : List CartItem) (pid : Nat) (v : Variant)
    (q : Int) (p : Rat) (now : Nat) (i : CartItem)
    (h : findLine items pid v = some i) :
    (addLines items pid v q p now).length = items.length := by
  induction items with
  | nil => simp [findLine] at h
  | cons item rest ih =>
      by_cases hc : item.product = pid ∧ item.variant = v
      · simp [addLines, if_pos hc]
      · simp only [findLine, if_neg hc] at h
        simp [addLines, if_neg hc, ih h]

theorem findLine_addLines_of_some (items : List CartItem) (pid : Nat) (v : Variant)
    (q : Int) (p : Rat) (now : Nat) (i : CartItem)
    (h : findLine items pid v = some i) :
    findLine (addLines items pid v q p now) pid v =
      some { i with quantity := i.quantity + q, addedAt := now } := by
  induction items with
  | nil => simp [findLine] at h
  | cons item rest ih =>
      by_cases hc : item.product = pid ∧ item.variant = v
      · simp only [findLine, if_pos hc, Option.some.injEq] at h
        subst h
        simp [addLines, if_pos hc, findLine, hc]
      · simp only [findLine, if_neg hc] at h
        simp [addLines, if_neg hc, findLine, ih h]

theorem addLines_filter_other (items : List CartItem) (pid : Nat) (v : Variant)
    (q : Int) (p : Rat) (now : Nat) :
    ((addLines items pid v q p now).filter
        fun j => ¬ (j.product = pid ∧ j.variant = v)) =
      items.filter fun j => ¬ (j.product = pid ∧ j.variant = v) := by
  induction items with
  | nil => simp [addLines]
  | cons item rest ih =>
      by_cases hc : item.product = pid ∧ item.variant = v
      · simp [addLines, if_pos hc, List.filter_cons, hc.1, hc.2]
      · have hor : ¬ item.product = pid ∨ ¬ item.variant = v := by tauto
        simp only [List.filter] at ih ⊢
        simp [addLines, if_neg hc, List.filter_cons, hc, hor]
        simpa using ih

theorem setQtyFirst_length (items : List CartItem) (pid : Nat) (v : Variant) (q : Int) :
    (setQtyFirst items pid v q).length = items.length := by
  induction items with
  | nil => rfl
  | cons item rest ih =>
      by_cases hc : item.product = pid ∧ item.variant = v <;>
        simp [setQtyFirst, hc, ih]

theorem findLine_setQtyFirst (items : List CartItem) (pid : Nat) (v : Variant) (q : Int) :
    findLine (setQtyFirst items pid v q) pid v =
      (findLine items pid v).map fun i => { i with quantity := q } := by
  induction items with
  | nil => rfl
  | cons item rest ih =>
      by_cases hc : item.product = pid ∧ item.variant = v
      · simp [setQtyFirst, if_pos hc, findLine, hc]
      · simp [setQtyFirst, if_neg hc, findLine, hc, ih]

theorem setQtyFirst_filter_other (items : List CartItem) (pid : Nat) (v : Variant) (q : Int) :
    ((setQtyFirst items pid v q).filter
        fun j => ¬ (j.product = pid ∧ j.variant = v)) =
      items.filter fun j => ¬ (j.product = pid ∧ j.variant = v) := by
  induction items with
  | nil => rfl
  | cons item rest ih =>
      by_cases hc : item.product = pid ∧ item.variant = v
      · simp [setQtyFirst, if_pos hc, List.filter_cons, hc.1, hc.2]
      · have hor : ¬ item.product = pid ∨ ¬ item.variant = v := by tauto
        simp only [List.filter] at ih ⊢
        simp [setQtyFirst, if_neg hc, List.filter_cons, hc, hor]
        simpa using ih

theorem validate_iff (c : Cart) :
    c.validate = true ↔
      ∀ i ∈ c.items, 1 ≤ i.quantity ∧ i.quantity ≤ 100 ∧ 0 ≤ i.price := by
  simp [Cart.validate, List.all_eq_true]

/-- C4: For every cart, the derived total equals
subtotal + shippingCost + tax.amount − discountAmount, where
subtotal = Σ item.price × item.quantity over the current lines, and
discountAmount is subtotal × discount/100 for a percentage coupon, the
coupon's fixed discount value for a fixed coupon, and zero when no coupon
is applied. -/
theorem C4_cart_total_formula (c : Cart) :
    c.total = c.subtotal + c.shippingCost + c.taxAmount - specDiscountAmount c
    ∧ c.subtotal = (c.items.map fun i => i.price * (i.quantity : Rat)).sum := by
  constructor
  · have hd : c.discountAmount = specDiscountAmount c := by
      cases h : c.coupon <;> simp [Cart.discountAmount, specDiscountAmount, h]
    simp [Cart.total, hd]
  · simpa using foldl_add_map (fun i => i.price * (i.quantity : Rat)) c.items 0

/-- C2 (code bug): the privileged status-update route
(`PUT /api/orders/:id/status`) never releases inventory on cancellation:
it tests `order.status !== 'cancelled'` only after `updateStatus` has
already set `order.status` to `'cancelled'`, so the restore loop is dead
code and the product store is returned unchanged for every status update,
contradicting the route's own "If order is cancelled, restore inventory"
intent.  The first conjunct proves the store is unchanged universally; the
second evaluates the route at a concrete pending order holding 3 units of
product 1 at price 10, showing the status becomes cancelled while the
product's inventory, totalSold and totalRevenue stay at their
pre-cancellation values. -/
theorem C2_admin_cancellation_skips_release :
    (∀ (store : Store) (o : Order) (s : OStatus) (note : String) (actor now : Nat),
        (routeUpdateOrderStatus store o s note actor now).2 = store)
    ∧ ((routeUpdateOrderStatus
          [(1, { price := 10, inventory := { trackInventory := true, quantity := 2, allowBackorder := false },
                 sales := { totalSold := 3, totalRevenue := 30 }, status := PStatus.active })]
          { orderNumber := "ORD-000001", customer := 7,
            items := [{ product := 1, variant := { name := none, options := [] },
                        quantity := 3, price := 10, total := 30 }],
            subtotal := 30, taxAmount := 0, shippingCost := 0, discountAmount := 0,
            total := 30, status := OStatus.pending,
            timeline := [{ status := OStatus.pending, timestamp := 0, note := "", updatedBy := none }] }
          OStatus.cancelled "cancel it" 9 5).1.status = OStatus.cancelled
      ∧ (routeUpdateOrderStatus
          [(1, { price := 10, inventory := { trackInventory := true, quantity := 2, allowBackorder := false },
                 sales := { totalSold := 3, totalRevenue := 30 }, status := PStatus.active })]
          { orderNumber := "ORD-000001", customer := 7,
            items := [{ product := 1, variant := { name := none, options := [] },
                        quantity := 3, price := 10, total := 30 }],
            subtotal := 30, taxAmount := 0, shippingCost := 0, discountAmount := 0,
            total := 30, status := OStatus.pending,
            timeline := [{ status := OStatus.pending, timestamp := 0, note := "", updatedBy := none }] }
          OStatus.cancelled "cancel it" 9 5).2
        = [(1, { price := 10, inventory := { trackInventory := true, quantity := 2, allowBackorder := false },
                 sales := { totalSold := 3, totalRevenue := 30 }, status := PStatus.active })]) := by
  refine ⟨fun store o s note actor now => ?_, by decide, by decide⟩
  have hsaved : ((o.updateStatus s note (some actor) now).saveHook o.status now).status = s := by
    unfold Order.saveHook Order.updateStatus
    split <;> rfl
  simp only [routeUpdateOrderStatus]
  rw [hsaved]
  simp

/-- C7: applyCoupon rejects with InvalidCoupon when the normalized
(upper-cased, trimmed) code is unknown (no table entry carries an expiry,
so no known code is ever expired), rejects with EmptyCart when the cart
has no items, and on success overwrites any previously applied coupon so
that at most one coupon is active per cart. -/
theorem C7_applyCoupon_behavior :
    (∀ (c : Cart) (code : String) (now : Nat),
        trimChars code ≠ "" → validCoupons (upperChars (trimChars code)) = none →
        routeApplyCoupon c code now = Except.error ApiError.invalidCoupon)
    ∧ (∀ (c : Cart) (code : String) (now : Nat) (r : Rat × CouponType),
        c.items = [] → trimChars code ≠ "" →
        validCoupons (upperChars (trimChars code)) = some r →
        routeApplyCoupon c code now = Except.error ApiError.emptyCart)
    ∧ (∀ (c : Cart) (code : String) (now : Nat) (r : Rat × CouponType),
        c.items ≠ [] → c.validate = true → trimChars code ≠ "" →
        validCoupons (upperChars (trimChars code)) = some r →
        routeApplyCoupon c code now = Except.ok
          { c with coupon := some { code := upperChars (trimChars code),
                                    discount := r.1, ctype := r.2, appliedAt := now,
                                    expiresAt := now + 24 * 60 * 60 * 1000 } }) := by
  refine ⟨fun c code now h1 h2 => ?_, fun c code now r h0 h1 h2 => ?_,
    fun c code now r h0 hv h1 h2 => ?_⟩
  · simp [routeApplyCoupon, h1, h2]
  · simp [routeApplyCoupon, h0, h1, h2]
  · have hsave : (c.applyCouponMut (upperChars (trimChars code)) r.1 r.2 now
        (now + 24 * 60 * 60 * 1000)).validate = true := hv
    have hlen : ¬ c.items.length = 0 := by
      simpa [List.length_eq_zero] using h0
    have hroute : routeApplyCoupon c code now =
        (c.applyCouponMut (upperChars (trimChars code)) r.1 r.2 now
          (now + 24 * 60 * 60 * 1000)).save := by
      simp [routeApplyCoupon, h1, h2, hlen]
    rw [hroute]
    simp only [Cart.save, hsave, if_true]
    rfl

theorem C7_applyCoupon_behavior_witness :
    routeApplyCoupon ⟨[], none, "standard", 0, 0, 0⟩ "BOGUS" 0 =
        Except.error ApiError.invalidCoupon
    ∧ routeApplyCoupon ⟨[], none, "standard", 0, 0, 0⟩ "SAVE20" 0 =
        Except.error ApiError.emptyCart
    ∧ routeApplyCoupon
        ⟨[⟨1, ⟨none, []⟩, 2, 10, 0⟩], some ⟨"WELCOME10", 10, CouponType.percentage, 0, 9⟩,
          "standard", 0, 0, 0⟩ " save20 " 3 =
        Except.ok ⟨[⟨1, ⟨none, []⟩, 2, 10, 0⟩],
          some ⟨"SAVE20", 20, CouponType.fixed, 3, 86400003⟩, "standard", 0, 0, 0⟩ :=
  ⟨C7_applyCoupon_behavior.1 _ "BOGUS" 0 (by decide) (by decide),
   C7_applyCoupon_behavior.2.1 _ "SAVE20" 0 (20, CouponType.fixed) rfl (by decide) (by decide),
   C7_applyCoupon_behavior.2.2 _ " save20 " 3 (20, CouponType.fixed)
     (by decide) (by decide) (by decide) (by decide)⟩

/-- C9: Customer-initiated cancellation succeeds only when the order's
status is pending or confirmed; attempting cancellation from any later
state is rejected with InvalidTransition without producing any updated
order or store state. -/
theorem C9_customer_cancel_policy (store : Store) (o : Order) (u : Nat)
    (reason : Option String) (now : Nat) (hown : o.customer = u) :
    (¬ (o.status = OStatus.pending ∨ o.status = OStatus.confirmed) →
        routeCancelOrder store o u reason now = Except.error ApiError.invalidTransition)
    ∧ ((o.status = OStatus.pending ∨ o.status = OStatus.confirmed) →
        ∃ res, routeCancelOrder store o u reason now = Except.ok res
          ∧ res.1.status = OStatus.cancelled) := by
  constructor
  · intro hst
    simp [routeCancelOrder, hown, hst]
  · intro hst
    have hres : routeCancelOrder store o u reason now = Except.ok
        ((o.updateStatus OStatus.cancelled (reason.getD "Cancelled by customer")
            (some u) now).saveHook o.status now,
          releaseAll store ((o.updateStatus OStatus.cancelled
            (reason.getD "Cancelled by customer") (some u) now).saveHook o.status now).items) := by
      simp [routeCancelOrder, hown, hst]
    refine ⟨_, hres, ?_⟩
    unfold Order.saveHook Order.updateStatus
    split <;> rfl

theorem C9_customer_cancel_policy_witness :
    routeCancelOrder [] ⟨"ORD-000002", 7, [], 0, 0, 0, 0, 0, OStatus.delivered, []⟩
        7 none 4 = Except.error ApiError.invalidTransition :=
  (C9_customer_cancel_policy [] ⟨"ORD-000002", 7, [], 0, 0, 0, 0, 0, OStatus.delivered, []⟩
      7 none 4 rfl).1 (by decide)

/-- C5: addItem with the same (product, variant) pair as an existing line
merges into that line by summing quantities and refreshing addedAt and
never creates a second line (the first matching line is updated in place,
line count is unchanged and all non-matching lines are untouched); a
distinct (product, variant) pair appends a new line at the end; the
route rejects addItem with qty < 1; the concrete example: adding product 1
with the empty variant at qty 2 and then qty 3 yields a single line with
qty 5. -/
theorem C5_addItem_merge :
    (∀ (c : Cart) (pid : Nat) (v : Variant) (q : Int) (p : Rat) (now : Nat),
        findLine c.items pid v = none →
        (c.addItemMut pid v q p now).items = c.items ++
          [{ product := pid, variant := v, quantity := q, price := p, addedAt := now }])
    ∧ (∀ (c : Cart) (pid : Nat) (v : Variant) (q : Int) (p : Rat) (now : Nat) (i : CartItem),
        findLine c.items pid v = some i →
        (c.addItemMut pid v q p now).items.length = c.items.length
        ∧ findLine (c.addItemMut pid v q p now).items pid v =
            some { i with quantity := i.quantity + q, addedAt := now }
        ∧ ((c.addItemMut pid v q p now).items.filter
              fun j => ¬ (j.product = pid ∧ j.variant = v)) =
            (c.items.filter fun j => ¬ (j.product = pid ∧ j.variant = v)))
    ∧ (∀ (store : Store) (c : Cart) (pid : Nat) (v : Variant) (q : Int) (now : Nat),
        q < 1 → routeAddItem store c pid v q now = Except.error ApiError.validationFailed)
    ∧ (((⟨[], none, "standard", 0, 0, 0⟩ : Cart).addItemMut 1 ⟨none, []⟩ 2 10 4).addItemMut
          1 ⟨none, []⟩ 3 10 9).items = [⟨1, ⟨none, []⟩, 5, 10, 9⟩] := by
  refine ⟨fun c pid v q p now h => addLines_of_none c.items pid v q p now h,
    fun c pid v q p now i h => ⟨addLines_length_of_some c.items pid v q p now i h,
      findLine_addLines_of_some c.items pid v q p now i h,
      addLines_filter_other c.items pid v q p now⟩,
    fun store c pid v q now h => by simp [routeAddItem, h],
    by decide⟩

theorem C5_addItem_merge_witness :
    ((⟨[⟨2, ⟨none, []⟩, 1, 5, 0⟩], none, "standard", 0, 0, 0⟩ : Cart).addItemMut
        1 ⟨none, []⟩ 2 10 4).items =
      [⟨2, ⟨none, []⟩, 1, 5, 0⟩, ⟨1, ⟨none, []⟩, 2, 10, 4⟩]
    ∧ (((⟨[⟨1, ⟨none, []⟩, 2, 10, 0⟩], none, "standard", 0, 0, 0⟩ : Cart).addItemMut
          1 ⟨none, []⟩ 3 10 9).items.length = 1
      ∧ findLine ((⟨[⟨1, ⟨none, []⟩, 2, 10, 0⟩], none, "standard", 0, 0, 0⟩ : Cart).addItemMut
          1 ⟨none, []⟩ 3 10 9).items 1 ⟨none, []⟩ = some ⟨1, ⟨none, []⟩, 5, 10, 9⟩
      ∧ (((⟨[⟨1, ⟨none, []⟩, 2, 10, 0⟩], none, "standard", 0, 0, 0⟩ : Cart).addItemMut
            1 ⟨none, []⟩ 3 10 9).items.filter
            fun j => ¬ (j.product = 1 ∧ j.variant = ⟨none, []⟩)) =
          ([⟨1, ⟨none, []⟩, 2, 10, 0⟩].filter
            fun j => ¬ (j.product = 1 ∧ j.variant = (⟨none, []⟩ : Variant))))
    ∧ routeAddItem [] ⟨[], none, "standard", 0, 0, 0⟩ 1 ⟨none, []⟩ 0 0 =
        Except.error ApiError.validationFailed :=
  ⟨C5_addItem_merge.1 ⟨[⟨2, ⟨none, []⟩, 1, 5, 0⟩], none, "standard", 0, 0, 0⟩
      1 ⟨none, []⟩ 2 10 4 (by decide),
   C5_addItem_merge.2.1 ⟨[⟨1, ⟨none, []⟩, 2, 10, 0⟩], none, "standard", 0, 0, 0⟩
      1 ⟨none, []⟩ 3 10 9 ⟨1, ⟨none, []⟩, 2, 10, 0⟩ (by decide),
   C5_addItem_merge.2.2.1 [] ⟨[], none, "standard", 0, 0, 0⟩ 1 ⟨none, []⟩ 0 0 (by decide)⟩

/-- C6: For every cart and every existing line, setItemQuantity with
quantity 0 removes every line with that (product, variant) key (a cart
with one line set to 0 ends with zero items and itemCount = 0); a
positive quantity replaces the first matching line's quantity leaving
line count and all non-matching lines unchanged; a negative quantity is
rejected by the route's validator. -/
theorem C6_setItemQuantity :
    (∀ (c : Cart) (item : CartItem), item ∈ c.items →
        (c.updateItemQuantityMut item.product item.variant 0).items =
          (c.items.filter fun j => ¬ (j.product = item.product ∧ j.variant = item.variant)))
    ∧ (∀ (c : Cart) (item : CartItem) (q : Int), item ∈ c.items → 0 < q →
        (c.updateItemQuantityMut item.product item.variant q).items.length = c.items.length
        ∧ findLine (c.updateItemQuantityMut item.product item.variant q).items
              item.product item.variant =
            (findLine c.items item.product item.variant).map (fun i => { i with quantity := q })
        ∧ ((c.updateItemQuantityMut item.product item.variant q).items.filter
              fun j => ¬ (j.product = item.product ∧ j.variant = item.variant)) =
            (c.items.filter fun j => ¬ (j.product = item.product ∧ j.variant = item.variant)))
    ∧ (∀ (store : Store) (c : Cart) (item : CartItem) (q : Int), q < 0 →
        routeUpdateItemQuantity store c item q = Except.error ApiError.validationFailed)
    ∧ ((⟨[⟨1, ⟨none, []⟩, 2, 10, 0⟩], none, "standard", 0, 0, 0⟩ : Cart).updateItemQuantityMut
          1 ⟨none, []⟩ 0).items = []
    ∧ ((⟨[⟨1, ⟨none, []⟩, 2, 10, 0⟩], none, "standard", 0, 0, 0⟩ : Cart).updateItemQuantityMut
          1 ⟨none, []⟩ 0).itemCount = 0 := by
  have hany : ∀ (c : Cart) (item : CartItem), item ∈ c.items →
      (c.items.any fun j => j.product = item.product ∧ j.variant = item.variant) = true :=
    fun c item hmem => List.any_eq_true.mpr ⟨item, hmem, by simp⟩
  refine ⟨fun c item hmem => ?_, fun c item q hmem hq => ?_,
    fun store c item q h => by simp [routeUpdateItemQuantity, h], by decide, by decide⟩
  · have hex : ∃ x ∈ c.items, x.product = item.product ∧ x.variant = item.variant :=
      ⟨item, hmem, rfl, rfl⟩
    simp [Cart.updateItemQuantityMut, hex]
  · have hex : ∃ x ∈ c.items, x.product = item.product ∧ x.variant = item.variant :=
      ⟨item, hmem, rfl, rfl⟩
    have hnle : ¬ q ≤ 0 := not_le.mpr hq
    simp only [Cart.updateItemQuantityMut, hany c item hmem, if_true, hnle, if_false]
    exact ⟨setQtyFirst_length c.items item.product item.variant q,
      findLine_setQtyFirst c.items item.product item.variant q,
      setQtyFirst_filter_other c.items item.product item.variant q⟩

theorem C6_setItemQuantity_witness :
    ((⟨[⟨1, ⟨none, []⟩, 2, 10, 0⟩, ⟨2, ⟨none, []⟩, 4, 5, 0⟩], none, "standard", 0, 0, 0⟩ :
        Cart).updateItemQuantityMut 1 ⟨none, []⟩ 0).items =
      ([⟨1, ⟨none, []⟩, 2, 10, 0⟩, ⟨2, ⟨none, []⟩, 4, 5, 0⟩].filter
        fun j => ¬ (j.product = 1 ∧ j.variant = (⟨none, []⟩ : Variant)))
    ∧ ((⟨[⟨1, ⟨none, []⟩, 2, 10, 0⟩], none, "standard", 0, 0, 0⟩ :
          Cart).updateItemQuantityMut 1 ⟨none, []⟩ 7).items.length = 1
    ∧ routeUpdateItemQuantity [] ⟨[], none, "standard", 0, 0, 0⟩
        ⟨1, ⟨none, []⟩, 2, 10, 0⟩ (-1) = Except.error ApiError.validationFailed :=
  ⟨C6_setItemQuantity.1 ⟨[⟨1, ⟨none, []⟩, 2, 10, 0⟩, ⟨2, ⟨none, []⟩, 4, 5, 0⟩],
      none, "standard", 0, 0, 0⟩ ⟨1, ⟨none, []⟩, 2, 10, 0⟩ (by simp),
   (C6_setItemQuantity.2.1 ⟨[⟨1, ⟨none, []⟩, 2, 10, 0⟩], none, "standard", 0, 0, 0⟩
      ⟨1, ⟨none, []⟩, 2, 10, 0⟩ 7 (by simp) (by decide)).1,
   C6_setItemQuantity.2.2.1 [] ⟨[], none, "standard", 0, 0, 0⟩
      ⟨1, ⟨none, []⟩, 2, 10, 0⟩ (-1) (by decide)⟩

/-- C10: Every persisted cart line satisfies 1 ≤ quantity ≤ 100 (the
schema maximum of 100 is enforced by save-time validation), and an
addItem whose merged quantity would exceed 100 fails validation at save. -/
theorem C10_persisted_quantity_cap :
    (∀ c : Cart, c.validate = true → ∀ i ∈ c.items, 1 ≤ i.quantity ∧ i.quantity ≤ 100)
    ∧ (∀ (c : Cart) (pid : Nat) (v : Variant) (q : Int) (p : Rat) (now : Nat) (i : CartItem),
        findLine c.items pid v = some i → 100 < i.quantity + q →
        (c.addItemMut pid v q p now).save = Except.error ApiError.saveValidationFailed) := by
  constructor
  · intro c hv i hi
    have h := (validate_iff c).mp hv i hi
    exact ⟨h.1, h.2.1⟩
  · intro c pid v q p now i hfind hq
    have hmem : ({ i with quantity := i.quantity + q, addedAt := now } : CartItem) ∈
        (c.addItemMut pid v q p now).items :=
      findLine_mem _ _ _ _ (findLine_addLines_of_some c.items pid v q p now i hfind)
    have hval : (c.addItemMut pid v q p now).validate = false := by
      cases hb : (c.addItemMut pid v q p now).validate
      · rfl
      · exfalso
        have hle := ((validate_iff _).mp hb _ hmem).2.1
        have hle2 : i.quantity + q ≤ 100 := hle
        omega
    simp [Cart.save, hval]

theorem C10_persisted_quantity_cap_witness :
    (1 ≤ (2 : Int) ∧ (2 : Int) ≤ 100)
    ∧ ((⟨[⟨1, ⟨none, []⟩, 99, 10, 0⟩], none, "standard", 0, 0, 0⟩ : Cart).addItemMut
          1 ⟨none, []⟩ 5 10 7).save = Except.error ApiError.saveValidationFailed :=
  ⟨C10_persisted_quantity_cap.1 ⟨[⟨1, ⟨none, []⟩, 2, 10, 0⟩], none, "standard", 0, 0, 0⟩
      (by decide) ⟨1, ⟨none, []⟩, 2, 10, 0⟩ (by simp),
   C10_persisted_quantity_cap.2 ⟨[⟨1, ⟨none, []⟩, 99, 10, 0⟩], none, "standard", 0, 0, 0⟩
      1 ⟨none, []⟩ 5 10 7 ⟨1, ⟨none, []⟩, 99, 10, 0⟩ (by decide) (by decide)⟩

end Shop
